import Mathlib

/-!
Shallow embedding of the chordnet repository (a Chord distributed-hash-table
node) and proofs of the frozen specification claims.

Sources embedded:
* `src/chordnet/address.py` — the `Address` value object and its SHA-1 key
  derivation (`Address._hash`, `Address.__eq__`).
* `src/chordnet/chordnet.py` — the public `ChordNet` facade (`leave`).
* the `_Node` routing/maintenance engine: this module is imported by
  `chordnet.py` and exercised by `tests/test_node.py`, but its source file is
  not part of the source tree given; its operations are modelled from the
  specification (each such definition carries a doc comment starting
  `Modelled from the spec:`).

Machine integers are modelled as `Nat` with explicit reduction modulo `2^32`
(SHA-1 words) or `2^M` (ring identifiers).  Network I/O is modelled by an
explicit oracle argument describing the reply (or failure) of each outbound
request, and operations return the data needed to observe which requests and
notifications they issue.
-/

namespace Chordnet

/-! ## SHA-1 (models Python `hashlib.sha1` used by `Address._hash`) -/

/-- Mask for reduction modulo `2^32`, the SHA-1 word size. -/
def MASK32 : Nat := 4294967295

/-- Left rotation of a 32-bit word by `k` bits. -/
def rotl (k x : Nat) : Nat := ((x <<< k) ||| (x >>> (32 - k))) &&& MASK32

/-- Big-endian 8-byte encoding of the bit length, as required by SHA-1 padding. -/
def lenBytes (n : Nat) : List Nat :=
  [ (n >>> 56) &&& 255, (n >>> 48) &&& 255, (n >>> 40) &&& 255, (n >>> 32) &&& 255,
    (n >>> 24) &&& 255, (n >>> 16) &&& 255, (n >>> 8) &&& 255, n &&& 255 ]

/-- SHA-1 padding: append `0x80`, zero bytes up to 56 mod 64, then the
64-bit big-endian message bit length. -/
def padBytes (msg : List Nat) : List Nat :=
  msg ++ [128] ++ List.replicate ((119 - (msg.length % 64)) % 64) 0 ++ lenBytes (8 * msg.length)

/-- Group a byte list into big-endian 32-bit words. -/
def toWords : List Nat → List Nat
  | a :: b :: c :: d :: rest => (((a * 256 + b) * 256 + c) * 256 + d) :: toWords rest
  | _ => []

/-- Message-schedule extension: append `k` further words, each the 1-bit left
rotation of the xor of the words 3, 8, 14 and 16 positions back. -/
def expandLoop : Nat → List Nat → List Nat
  | 0, w => w
  | k + 1, w =>
    let i := w.length
    expandLoop k (w ++ [rotl 1 (((w.getD (i - 3) 0) ^^^ (w.getD (i - 8) 0)) ^^^
      ((w.getD (i - 14) 0) ^^^ (w.getD (i - 16) 0)))])

/-- One SHA-1 compression round: round function and constant depend on the
round index `i`; all arithmetic is modulo `2^32`. -/
def roundStep (i : Nat) (st : Nat × Nat × Nat × Nat × Nat) (w : Nat) :
    Nat × Nat × Nat × Nat × Nat :=
  let (a, b, c, d, e) := st
  let f :=
    if i < 20 then (b &&& c) ||| ((b ^^^ MASK32) &&& d)
    else if i < 40 then (b ^^^ c) ^^^ d
    else if i < 60 then ((b &&& c) ||| (b &&& d)) ||| (c &&& d)
    else (b ^^^ c) ^^^ d
  let k :=
    if i < 20 then 0x5A827999
    else if i < 40 then 0x6ED9EBA1
    else if i < 60 then 0x8F1BBCDC
    else 0xCA62C1D6
  ((rotl 5 a + f + e + k + w) &&& MASK32, a, rotl 30 b, c, d)

/-- Run the 80 compression rounds over the expanded schedule. -/
def roundsLoop : Nat → (Nat × Nat × Nat × Nat × Nat) → List Nat →
    Nat × Nat × Nat × Nat × Nat
  | _, st, [] => st
  | i, st, w :: ws => roundsLoop (i + 1) (roundStep i st w) ws

/-- Compress one 64-byte block into the running hash state. -/
def compress (h : Nat × Nat × Nat × Nat × Nat) (block : List Nat) :
    Nat × Nat × Nat × Nat × Nat :=
  let (a, b, c, d, e) := roundsLoop 0 h (expandLoop 64 (toWords block))
  let (h0, h1, h2, h3, h4) := h
  ((h0 + a) &&& MASK32, (h1 + b) &&& MASK32, (h2 + c) &&& MASK32,
   (h3 + d) &&& MASK32, (h4 + e) &&& MASK32)

/-- Initial SHA-1 state. -/
def initState : Nat × Nat × Nat × Nat × Nat :=
  (0x67452301, 0xEFCDAB89, 0x98BADCFE, 0x10325476, 0xC3D2E1F0)

/-- Fold the compression function over `k` consecutive 64-byte blocks. -/
def processBlocks : Nat → (Nat × Nat × Nat × Nat × Nat) → List Nat →
    Nat × Nat × Nat × Nat × Nat
  | 0, st, _ => st
  | k + 1, st, bytes => processBlocks k (compress st (bytes.take 64)) (bytes.drop 64)

/-- SHA-1 digest of a byte list, read as a 160-bit big-endian integer.  This
matches Python's `int(hashlib.sha1(data).hexdigest(), 16)`. -/
def sha1Nat (msg : List Nat) : Nat :=
  let padded := padBytes msg
  let (h0, h1, h2, h3, h4) := processBlocks (padded.length / 64) initState padded
  (((h0 * 4294967296 + h1) * 4294967296 + h2) * 4294967296 + h3) * 4294967296 + h4

/-- ASCII byte encoding of a string (the spec requires ASCII input, on which
Python's `str.encode()` agrees with the code points). -/
def strBytes (s : String) : List Nat := s.toList.map Char.toNat

/-! ## Address (`src/chordnet/address.py`) -/

/-- Bit width of the identifier space (`Address._M`). -/
def M : Nat := 16

/-- Size of the identifier space (`Address._SPACE = 2 ** _M`). -/
def SPACE : Nat := 2 ^ M

/-- Network address of a node: identifier key, IP string and port
(`Address.__slots__ = (key, ip, port)`). -/
structure Address where
  key : Nat
  ip : String
  port : Nat
deriving Repr, DecidableEq

/-- Consistent hash for identifiers (`Address._hash`): the SHA-1 digest of the
string, as an integer, reduced modulo the space size. -/
def hashStr (s : String) : Nat := sha1Nat (strBytes s) % SPACE

/-- Constructor `Address.__init__(ip, port)`: sets `key = _hash(f"{ip}:{port}")`. -/
def Address.make (ip : String) (port : Nat) : Address :=
  { key := hashStr (ip ++ ":" ++ toString port), ip := ip, port := port }

/-- Equality on two addresses (`Address.__eq__` after the isinstance guard):
the `(ip, port, key)` triples must match. -/
def addressEq (a b : Address) : Bool :=
  a.ip == b.ip && a.port == b.port && a.key == b.key

/-- Values an `Address` may be compared against in Python: another address or
some non-address value. -/
inductive PyVal where
  | addr (a : Address)
  | int (n : Int)
  | str (s : String)
  | noneVal
deriving Repr, DecidableEq

/-- Full `Address.__eq__(self, other)`: returns false outright when `other` is
not an `Address`, otherwise compares the triples. -/
def addressEqPy (a : Address) (v : PyVal) : Bool :=
  match v with
  | PyVal.addr b => addressEq a b
  | _ => false

/-- String form of an address (`Address.__repr__`): `key:ip:port`. -/
def addrString (a : Address) : String :=
  toString a.key ++ ":" ++ a.ip ++ ":" ++ toString a.port

set_option maxRecDepth 100000 in
example : (Address.make "1.2.3.4" 5).key = 57776 := by decide

/-! ## Ring-interval arithmetic and node state

The `_Node` class itself (`chordnet/_node.py`) is imported by `chordnet.py`
and exercised by `tests/test_node.py`, but its source file is not in the
given tree, so the following operations are modelled from the specification
(sections 4.1 to 4.4) and pinned wherever possible by the regression tests. -/

/-- Modelled from the spec: `_Node._is_between(start, end, x)`, the open
circular interval.  If `start < end`: `start < x < end`; if `start > end`
(wrap): `x > start or x < end`; if `start == end`: always false. -/
def is_between (start fin x : Nat) : Bool :=
  if start < fin then start < x && x < fin
  else if fin < start then x > start || x < fin
  else false

/-- Modelled from the spec: the half-open circular interval `(start, end]`
behind `_Node._is_key_in_range`.  If `start < end`: `start < x <= end`; if
`start > end` (wrap): `x > start or x <= end`.  The spec leaves
`start == end` open; the solo-ring regression test pins it to
`x != start` (everything but the node's own key). -/
def in_half_open (start fin x : Nat) : Bool :=
  if start < fin then start < x && x ≤ fin
  else if fin < start then x > start || x ≤ fin
  else x ≠ start

/-- Modelled from the spec: the `_Node` routing state — own address, finger
table (entry 0 is the successor), optional predecessor, and the
next-finger cursor `_next`. -/
structure NodeState where
  address : Address
  finger_table : List (Option Address)
  predecessor : Option Address
  next : Nat
deriving Repr, DecidableEq

/-- Modelled from the spec: `_Node.__init__(ip, port)` computes the key, sets
all fingers and the predecessor unset and the cursor to 0. -/
def NodeState.make (ip : String) (port : Nat) : NodeState :=
  { address := Address.make ip port
    finger_table := List.replicate M none
    predecessor := none
    next := 0 }

/-- Modelled from the spec: `_Node.successor()` returns `finger_table[0]`. -/
def successor (n : NodeState) : Option Address :=
  n.finger_table.getD 0 none

/-- Modelled from the spec: `_Node._is_key_in_range(key)` tests
`key ∈ (self.key, successor.key]` on the circle. -/
def _is_key_in_range (n : NodeState) (x : Nat) : Bool :=
  match successor n with
  | none => false
  | some succ => in_half_open n.address.key succ.key x

/-- Helper for `closest_preceding_finger`: scan the reversed finger table and
return the first set entry whose key lies strictly between the node's key
and the target, or the node's own address if none qualifies. -/
def cpfScan (selfAddr : Address) (target : Nat) : List (Option Address) → Address
  | [] => selfAddr
  | none :: rest => cpfScan selfAddr target rest
  | some a :: rest =>
    if is_between selfAddr.key target a.key then a else cpfScan selfAddr target rest

/-- Modelled from the spec: `_Node.closest_preceding_finger(target_id)` scans
the finger table from the highest index down. -/
def closest_preceding_finger (n : NodeState) (target : Nat) : Address :=
  cpfScan n.address target n.finger_table.reverse

/-- Accumulating splitter over a character list: `splitCharAux sep cur cs`
splits `cs` at every occurrence of `sep`, with `cur` the (reversed) chunk
read so far.  This is the structural counterpart of Python's `str.split`. -/
def splitCharAux (sep : Char) (cur : List Char) : List Char → List (List Char)
  | [] => [cur.reverse]
  | c :: cs =>
    if c = sep then cur.reverse :: splitCharAux sep [] cs
    else splitCharAux sep (c :: cur) cs

/-- Split a string on the colon separator, as `s.split(":")` does. -/
def splitColon (s : String) : List String :=
  (splitCharAux ':' [] s.toList).map String.mk

/-- Parse a decimal digit string (the happy path of Python's `int(s)`). -/
def digitsToNat (acc : Nat) : List Char → Option Nat
  | [] => some acc
  | c :: cs =>
    if 48 ≤ c.toNat && c.toNat ≤ 57 then digitsToNat (acc * 10 + (c.toNat - 48)) cs
    else none

/-- Parse a non-empty decimal string to a natural number, `none` otherwise. -/
def strToNat (s : String) : Option Nat :=
  match s.toList with
  | [] => none
  | l => digitsToNat 0 l

/-- Join a list of strings with colon separators. -/
def joinColon : List String → String
  | [] => ""
  | [s] => s
  | s :: rest => s ++ ":" ++ joinColon rest

/-- Modelled from the spec: `_Node._parse_address(s)` — `"nil"` means no
address; otherwise exactly three non-empty colon-separated parts
`key:ip:port` with integer key and port, anything else is a `ValueError`. -/
def parse_address (s : String) : Except Unit (Option Address) :=
  if s = "nil" then Except.ok none
  else
    match splitColon s with
    | [k, ip, p] =>
      if k = "" ∨ ip = "" ∨ p = "" then Except.error ()
      else
        match strToNat k, strToNat p with
        | some key, some port => Except.ok (some { key := key, ip := ip, port := port })
        | _, _ => Except.error ()
    | _ => Except.error ()

/-! ## Network oracle -/

/-- Outcome of one outbound `send_request`: an exception during the send, the
`None` sentinel (timeout / connection refused / I/O error), or a reply
string. -/
inductive NetReply where
  | raise
  | noResp
  | reply (s : String)
deriving Repr, DecidableEq

/-- Environment oracle: the outcome of sending `method(args)` to a
destination address. -/
abbrev Net := Address → String → List Nat → NetReply

/-- Failure test for a forwarded `FIND_SUCCESSOR`: an exception, no response,
or a reply that does not parse to an address all count as failures and
trigger the local-successor fallback. -/
def sendFailure (r : NetReply) : Bool :=
  match r with
  | NetReply.raise => true
  | NetReply.noResp => true
  | NetReply.reply s =>
    match parse_address s with
    | Except.ok (some _) => false
    | _ => true

/-! ## Lookup -/

/-- Modelled from the spec: `_Node.find_successor(target_id)`.  Returns the
resolved address together with the list of requests sent.  If the target is
in `(self.key, successor.key]`, return the successor; otherwise ask
`closest_preceding_finger`; if that is self, return the successor with no
network call; otherwise forward `FIND_SUCCESSOR` to it, returning the parsed
reply on success and falling back to the local successor on any failure.
`none` is only returned when no successor is set (the spec guarantees a
successor on active nodes). -/
def find_successor (n : NodeState) (net : Net) (target : Nat) :
    Option Address × List (Address × String) :=
  match successor n with
  | none => (none, [])
  | some succ =>
    if _is_key_in_range n target then (some succ, [])
    else
      let cpf := closest_preceding_finger n target
      if addressEq cpf n.address then (some succ, [])
      else
        match net cpf "FIND_SUCCESSOR" [target] with
        | NetReply.reply s =>
          match parse_address s with
          | Except.ok (some a) => (some a, [(cpf, "FIND_SUCCESSOR")])
          | _ => (some succ, [(cpf, "FIND_SUCCESSOR")])
        | _ => (some succ, [(cpf, "FIND_SUCCESSOR")])

/-- Parse a `TRACE_SUCCESSOR` reply `"<key>:<ip>:<port>:<hops>"` into the
serialized address (everything before the final colon) and the reported hop
count (the final component). -/
def parseTraceReply (s : String) : Option (String × Nat) :=
  let parts := splitColon s
  match parts.getLast? with
  | none => none
  | some last =>
    match strToNat last with
    | none => none
    | some h =>
      if parts.length < 2 then none
      else some (joinColon parts.dropLast, h)

/-- Modelled from the spec: `_Node.trace_successor(target_id, hops)` — the
same routing as `find_successor` but returning a `(serialized address, hop
count)` pair.  Local resolution keeps the hop count unchanged; a successful
forward returns the remote address string with the remotely reported hop
count plus one; a failed forward falls back to the local successor with the
hop count unchanged.  `none` only when no successor is set. -/
def trace_successor (n : NodeState) (net : Net) (target hops : Nat) :
    Option (String × Nat) :=
  match successor n with
  | none => none
  | some succ =>
    if _is_key_in_range n target then some (addrString succ, hops)
    else
      let cpf := closest_preceding_finger n target
      if addressEq cpf n.address then some (addrString succ, hops)
      else
        match net cpf "TRACE_SUCCESSOR" [target, hops] with
        | NetReply.reply s =>
          match parseTraceReply s with
          | some (a, h) => some (a, h + 1)
          | none => some (addrString succ, hops)
        | _ => some (addrString succ, hops)

/-! ## Maintenance -/

/-- Modelled from the spec: `finger_start(i) = (self.key + 2^i) mod 2^M`. -/
def finger_start (n : NodeState) (i : Nat) : Nat :=
  (n.address.key + 2 ^ i) % SPACE

/-- Modelled from the spec: `_Node.fix_fingers()`.  The lookup it performs is
abstracted as an oracle `fs` (an exception or an address).  Returns the new
state and the target passed to `find_successor` (`none` when the lookup was
not invoked).  Without a successor it returns unchanged without advancing
the cursor; otherwise it refreshes `finger_table[_next]` when the lookup
succeeds, leaves it unchanged when the lookup fails, and advances the
cursor modulo `M` in both cases. -/
def fix_fingers (n : NodeState) (fs : Nat → Except Unit Address) :
    NodeState × Option Nat :=
  match successor n with
  | none => (n, none)
  | some _ =>
    let i := n.next
    let target := finger_start n i
    let n1 :=
      match fs target with
      | Except.ok a => { n with finger_table := n.finger_table.set i (some a) }
      | Except.error _ => n
    ({ n1 with next := (i + 1) % M }, some target)

/-- Modelled from the spec: `_Node.stabilize()`.  Returns the new state and
the address that `notify` is invoked on (`none` when stabilize returns
early for lack of a successor).  It asks the successor for its predecessor;
if the reply parses to an address strictly between self and the successor
it adopts that address as the new successor; any failure leaves the
successor unchanged; in every case with a successor it then notifies the
(possibly updated) successor. -/
def stabilize (n : NodeState) (net : Net) : NodeState × Option Address :=
  match successor n with
  | none => (n, none)
  | some succ =>
    let n1 :=
      match net succ "GET_PREDECESSOR" [] with
      | NetReply.reply s =>
        match parse_address s with
        | Except.ok (some x) =>
          if is_between n.address.key succ.key x.key then
            { n with finger_table := n.finger_table.set 0 (some x) }
          else n
        | _ => n
      | _ => n
    (n1, successor n1)

/-- Modelled from the spec: `_Node._be_notified(candidate)`, the inbound
`NOTIFY` handler.  Adopt the candidate when no predecessor is set or when
its key lies strictly between the predecessor's key and the node's own key;
otherwise leave the predecessor unchanged and report false. -/
def be_notified (n : NodeState) (cand : Address) : NodeState × Bool :=
  match n.predecessor with
  | none => ({ n with predecessor := some cand }, true)
  | some p =>
    if is_between p.key n.address.key cand.key then
      ({ n with predecessor := some cand }, true)
    else (n, false)

/-- Error surfaced by `join`: the `JoinFailed` error for a missing or
unparseable reply, or a re-raised network exception. -/
inductive JoinError where
  | joinFailed
  | netError
deriving Repr, DecidableEq

/-- Modelled from the spec: `_Node.join(peer_ip, peer_port)`.  Build the known
peer's address, send it `FIND_SUCCESSOR(self.key)`; a missing or
unparseable reply fails with `JoinFailed` (a send exception is re-raised);
on success adopt the parsed address as the successor and run `fix_fingers`
once.  Returns the resulting state and the error, if any; on error the
state is unchanged. -/
def join (n : NodeState) (net : Net) (peer_ip : String) (peer_port : Nat) :
    NodeState × Option JoinError :=
  let known := Address.make peer_ip peer_port
  match net known "FIND_SUCCESSOR" [n.address.key] with
  | NetReply.raise => (n, some JoinError.netError)
  | NetReply.noResp => (n, some JoinError.joinFailed)
  | NetReply.reply s =>
    match parse_address s with
    | Except.error _ => (n, some JoinError.joinFailed)
    | Except.ok none => (n, some JoinError.joinFailed)
    | Except.ok (some a) =>
      let n1 := { n with finger_table := n.finger_table.set 0 (some a) }
      let fs : Nat → Except Unit Address := fun t =>
        match (find_successor n1 net t).1 with
        | some b => Except.ok b
        | none => Except.error ()
      ((fix_fingers n1 fs).1, none)

/-! ## ChordNet facade (`src/chordnet/chordnet.py`) -/

/-- Public `ChordNet` API object; it owns a single `_Node`. -/
structure ChordNet where
  node : NodeState
deriving Repr, DecidableEq

/-- Translation of `ChordNet.leave(self)`: the body is `pass`.  The result
pairs the (unchanged) object with the list of requests sent (none). -/
def ChordNet.leave (c : ChordNet) : ChordNet × List (Address × String) :=
  (c, [])

/-! ## Sanity pins from the regression tests (`tests/test_node.py`) -/

example : is_between 10 50 30 = true ∧ is_between 10 50 10 = false ∧
    is_between 10 50 50 = false ∧ is_between 10 50 5 = false ∧
    is_between 10 50 55 = false := by decide

example : is_between 60 20 10 = true ∧ is_between 60 20 61 = true ∧
    is_between 60 20 19 = true ∧ is_between 60 20 50 = false ∧
    is_between 60 20 60 = false ∧ is_between 60 20 20 = false ∧
    is_between 10 10 10 = false ∧ is_between 10 10 20 = false := by decide

example : in_half_open 65530 50 65535 = true ∧ in_half_open 65530 50 40 = true ∧
    in_half_open 65530 50 50 = true ∧ in_half_open 65530 50 51 = false ∧
    in_half_open 65530 50 65529 = false := by decide

example :
    closest_preceding_finger
      ⟨⟨57776, "1.2.3.4", 5⟩,
       [some ⟨10, "1.1.1.1", 5001⟩, some ⟨30, "2.2.2.2", 5002⟩, some ⟨50, "3.3.3.3", 5003⟩],
       none, 0⟩ 60 = ⟨50, "3.3.3.3", 5003⟩ := by decide

example :
    closest_preceding_finger
      ⟨⟨57776, "1.2.3.4", 5⟩,
       [some ⟨10, "1.1.1.1", 5001⟩, some ⟨30, "2.2.2.2", 5002⟩, some ⟨50, "3.3.3.3", 5003⟩],
       none, 0⟩ 5 = ⟨57776, "1.2.3.4", 5⟩ := by decide

example : parse_address "nil" = Except.ok none := rfl

example : parse_address "12345:192.168.1.100:8000" =
    Except.ok (some ⟨12345, "192.168.1.100", 8000⟩) := rfl

example : parse_address "12345:192.168.1.100" = Except.error () := rfl

example : parse_address "12345:192.168.1.100:8000:extra" = Except.error () := rfl

example : parse_address "abc:192.168.1.100:8000" = Except.error () := rfl

example : parseTraceReply "550:4.4.4.4:4444:3" = some ("550:4.4.4.4:4444", 3) := rfl

/-! ## Helper lemmas -/

/-- Reflexivity of the modelled `Address.__eq__`. -/
theorem addressEq_refl (a : Address) : addressEq a a = true := by
  simp [addressEq]

/-! ## Claim theorems -/

set_option maxRecDepth 1000000 in
/-- C2: for every ip string and port, the key of the constructed Address is
the full 160-bit SHA-1 digest of the string `ip:port`, read as an integer,
reduced modulo `2^16`; in particular the key of `Address("1.2.3.4", 5)` is
57776. -/
theorem address_key_is_sha1_mod_space :
    (∀ ip : String, ∀ port : Nat,
      (Address.make ip port).key = sha1Nat (strBytes (ip ++ ":" ++ toString port)) % 2 ^ 16) ∧
    (Address.make "1.2.3.4" 5).key = 57776 :=
  ⟨fun _ _ => rfl, by decide⟩

/-- C9: two addresses are equal exactly when their ip, port and key all
match, and comparing an address against any non-address value yields false
(without raising). -/
theorem address_eq_triple_and_foreign (a b : Address) (v : PyVal)
    (hv : ∀ x, v ≠ PyVal.addr x) :
    (addressEqPy a (PyVal.addr b) = true ↔
      a.ip = b.ip ∧ a.port = b.port ∧ a.key = b.key) ∧
    addressEqPy a v = false := by
  constructor
  · simp [addressEqPy, addressEq, Bool.and_eq_true, and_assoc]
  · cases v with
    | addr x => exact absurd rfl (hv x)
    | int n => rfl
    | str s => rfl
    | noneVal => rfl

/-- Witness for C9 at concrete addresses and a concrete non-address value. -/
theorem address_eq_triple_and_foreign_witness :
    (addressEqPy (Address.mk 5 "a" 7) (PyVal.addr (Address.mk 5 "a" 7)) = true ↔
      (Address.mk 5 "a" 7).ip = (Address.mk 5 "a" 7).ip ∧
      (Address.mk 5 "a" 7).port = (Address.mk 5 "a" 7).port ∧
      (Address.mk 5 "a" 7).key = (Address.mk 5 "a" 7).key) ∧
    addressEqPy (Address.mk 5 "a" 7) (PyVal.int 3) = false :=
  address_eq_triple_and_foreign (Address.mk 5 "a" 7) (Address.mk 5 "a" 7)
    (PyVal.int 3) (fun _ hx => PyVal.noConfusion hx)

/-- C10: `ChordNet.leave()` is a no-op — it leaves the object unchanged and
sends no messages (its body is `pass`, returning `None`). -/
theorem leave_is_noop (c : ChordNet) : ChordNet.leave c = (c, []) := rfl

/-- C7: `be_notified(candidate)` adopts the candidate and returns true
exactly when no predecessor is set or the candidate's key lies strictly in
the open circular interval from the predecessor's key to the node's own
key; in every other case it returns false and leaves the state unchanged. -/
theorem be_notified_accepts_iff (n : NodeState) (c : Address) :
    (n.predecessor = none →
      be_notified n c = ({ n with predecessor := some c }, true)) ∧
    (∀ p, n.predecessor = some p → is_between p.key n.address.key c.key = true →
      be_notified n c = ({ n with predecessor := some c }, true)) ∧
    (∀ p, n.predecessor = some p → is_between p.key n.address.key c.key = false →
      be_notified n c = (n, false)) := by
  refine ⟨fun h => ?_, fun p hp hb => ?_, fun p hp hb => ?_⟩ <;>
    simp [be_notified, *]

/-- Witness for C7: the acceptance scenario of the notify regression test
(self key 1000, predecessor key 400, candidate key 500). -/
theorem be_notified_accepts_iff_witness :
    be_notified ⟨⟨1000, "s", 1⟩, [], some ⟨400, "p", 2⟩, 0⟩ ⟨500, "c", 3⟩ =
      (⟨⟨1000, "s", 1⟩, [], some ⟨500, "c", 3⟩, 0⟩, true) :=
  (be_notified_accepts_iff ⟨⟨1000, "s", 1⟩, [], some ⟨400, "p", 2⟩, 0⟩
    ⟨500, "c", 3⟩).2.1 ⟨400, "p", 2⟩ rfl (by decide)

/-- C6: when the GET_PREDECESSOR request that `stabilize` sends to the
successor fails (exception or no response), stabilize leaves the whole
state — in particular the successor pointer — unchanged, still notifies
that same successor, and returns normally. -/
theorem stabilize_failure_keeps_successor (n : NodeState) (net : Net)
    (succ : Address) (hsucc : successor n = some succ)
    (hfail : net succ "GET_PREDECESSOR" [] = NetReply.raise ∨
      net succ "GET_PREDECESSOR" [] = NetReply.noResp) :
    stabilize n net = (n, some succ) := by
  rcases hfail with h | h <;> simp [stabilize, hsucc, h]

/-- Witness for C6: a node whose successor is set and whose network raises on
every request. -/
theorem stabilize_failure_keeps_successor_witness :
    stabilize ⟨⟨100, "a", 1⟩, [some ⟨200, "b", 2⟩], none, 0⟩
      (fun _ _ _ => NetReply.raise) =
      (⟨⟨100, "a", 1⟩, [some ⟨200, "b", 2⟩], none, 0⟩, some ⟨200, "b", 2⟩) :=
  stabilize_failure_keeps_successor _ _ _ rfl (Or.inl rfl)

/-- C5: without a successor, `fix_fingers` neither invokes the lookup nor
advances the cursor; with a successor, when the lookup for cursor `i`
fails, `finger_table[i]` (indeed the whole table) is unchanged and the
cursor still advances to `(i + 1) mod M`. -/
theorem fix_fingers_failure_advances (n : NodeState) (fs : Nat → Except Unit Address) :
    (successor n = none → fix_fingers n fs = (n, none)) ∧
    (∀ succ i, successor n = some succ → n.next = i →
      fs (finger_start n i) = Except.error () →
      (fix_fingers n fs).1.finger_table = n.finger_table ∧
      (fix_fingers n fs).1.next = (i + 1) % M ∧
      (fix_fingers n fs).2 = some (finger_start n i)) := by
  constructor
  · intro h
    simp [fix_fingers, h]
  · intro succ i hs hi herr
    subst hi
    refine ⟨?_, ?_, ?_⟩ <;> simp [fix_fingers, hs, herr]

/-- Witness for C5: cursor 5 with a failing lookup — table unchanged, cursor
moves to 6 and the lookup was attempted at `finger_start(5)`. -/
theorem fix_fingers_failure_advances_witness :
    (fix_fingers ⟨⟨1000, "a", 1⟩, [some ⟨1001, "b", 2⟩], none, 5⟩
      (fun _ => Except.error ())).1.finger_table = [some ⟨1001, "b", 2⟩] ∧
    (fix_fingers ⟨⟨1000, "a", 1⟩, [some ⟨1001, "b", 2⟩], none, 5⟩
      (fun _ => Except.error ())).1.next = (5 + 1) % M ∧
    (fix_fingers ⟨⟨1000, "a", 1⟩, [some ⟨1001, "b", 2⟩], none, 5⟩
      (fun _ => Except.error ())).2 =
      some (finger_start ⟨⟨1000, "a", 1⟩, [some ⟨1001, "b", 2⟩], none, 5⟩ 5) :=
  (fix_fingers_failure_advances _ _).2 ⟨1001, "b", 2⟩ 5 rfl rfl rfl

/-- C3: with a successor set and cursor `i < M`, the target `fix_fingers`
hands to the lookup is `finger_start(i) = (self.key + 2^i) mod 2^M`, which
lies in `[0, 2^M)` whatever the node's key is. -/
theorem fix_fingers_target_is_finger_start (n : NodeState)
    (fs : Nat → Except Unit Address) (succ : Address) (i : Nat)
    (hsucc : successor n = some succ) (hi : n.next = i) (hiM : i < M) :
    (fix_fingers n fs).2 = some ((n.address.key + 2 ^ i) % 2 ^ M) ∧
    (n.address.key + 2 ^ i) % 2 ^ M < 2 ^ M := by
  subst hi
  constructor
  · simp [fix_fingers, hsucc, finger_start, SPACE]
  · exact Nat.mod_lt _ (by positivity)

/-- Witness for C3 at cursor 3 on a node with key 1000. -/
theorem fix_fingers_target_is_finger_start_witness :
    (fix_fingers ⟨⟨1000, "a", 1⟩, [some ⟨1200, "b", 2⟩], none, 3⟩
      (fun _ => Except.error ())).2 = some ((1000 + 2 ^ 3) % 2 ^ M) ∧
    (1000 + 2 ^ 3) % 2 ^ M < 2 ^ M :=
  fix_fingers_target_is_finger_start _ _ ⟨1200, "b", 2⟩ 3 rfl rfl (by decide)

/-- C1: `find_successor` never propagates a failure: when
`closest_preceding_finger` yields the node's own address the local
successor is returned with no network call, and when the forwarded request
to a remote finger fails in any way (exception, no response, unparseable
reply) the local successor is returned. -/
theorem find_successor_fallback (n : NodeState) (net : Net) (target : Nat)
    (succ : Address) (hsucc : successor n = some succ) :
    (closest_preceding_finger n target = n.address →
      find_successor n net target = (some succ, [])) ∧
    (∀ cpf, _is_key_in_range n target = false →
      closest_preceding_finger n target = cpf →
      addressEq cpf n.address = false →
      sendFailure (net cpf "FIND_SUCCESSOR" [target]) = true →
      (find_successor n net target).1 = some succ) := by
  constructor
  · intro hcpf
    by_cases hr : _is_key_in_range n target
    · simp [find_successor, hsucc, hr]
    · simp [find_successor, hsucc, hr, hcpf, addressEq_refl]
  · intro cpf hr hcpf hne hfail
    subst hcpf
    cases hnet : net (closest_preceding_finger n target) "FIND_SUCCESSOR" [target] with
    | raise => simp [find_successor, hsucc, hr, hne, hnet]
    | noResp => simp [find_successor, hsucc, hr, hne, hnet]
    | reply s =>
      rw [hnet] at hfail
      cases hp : parse_address s with
      | error e => simp [find_successor, hsucc, hr, hne, hnet, hp]
      | ok o =>
        cases o with
        | none => simp [find_successor, hsucc, hr, hne, hnet, hp]
        | some a =>
          rw [sendFailure, hp] at hfail
          exact absurd hfail (by simp)

/-- Witness for C1: a remote closest finger whose send raises — the lookup
falls back to the local successor. -/
theorem find_successor_fallback_witness :
    (find_successor
      ⟨⟨100, "a", 1⟩, [some ⟨200, "1.1.1.1", 1111⟩, some ⟨400, "3.3.3.3", 3333⟩], none, 0⟩
      (fun _ _ _ => NetReply.raise) 500).1 = some ⟨200, "1.1.1.1", 1111⟩ :=
  (find_successor_fallback
    ⟨⟨100, "a", 1⟩, [some ⟨200, "1.1.1.1", 1111⟩, some ⟨400, "3.3.3.3", 3333⟩], none, 0⟩
    (fun _ _ _ => NetReply.raise) 500 ⟨200, "1.1.1.1", 1111⟩ rfl).2
    ⟨400, "3.3.3.3", 3333⟩ (by decide) (by decide) (by decide) (by decide)

/-- C4: `trace_successor(target, hops)` returns a serialized-address/hops
pair: local resolution (target in range, or closest preceding finger is
self) keeps the hop count unchanged; a forwarded request whose reply
reports `h` hops returns `h + 1`; a failed forward falls back to the local
successor with the hop count unchanged. -/
theorem trace_successor_hops (n : NodeState) (net : Net) (target hops : Nat)
    (succ : Address) (hsucc : successor n = some succ) :
    (_is_key_in_range n target = true →
      trace_successor n net target hops = some (addrString succ, hops)) ∧
    (closest_preceding_finger n target = n.address →
      trace_successor n net target hops = some (addrString succ, hops)) ∧
    (∀ cpf s a h, _is_key_in_range n target = false →
      closest_preceding_finger n target = cpf →
      addressEq cpf n.address = false →
      net cpf "TRACE_SUCCESSOR" [target, hops] = NetReply.reply s →
      parseTraceReply s = some (a, h) →
      trace_successor n net target hops = some (a, h + 1)) ∧
    (∀ cpf, _is_key_in_range n target = false →
      closest_preceding_finger n target = cpf →
      addressEq cpf n.address = false →
      (net cpf "TRACE_SUCCESSOR" [target, hops] = NetReply.raise ∨
       net cpf "TRACE_SUCCESSOR" [target, hops] = NetReply.noResp) →
      trace_successor n net target hops = some (addrString succ, hops)) := by
  refine ⟨fun hr => ?_, fun hcpf => ?_, fun cpf s a h hr hcpf hne hnet hp => ?_,
    fun cpf hr hcpf hne hfail => ?_⟩
  · simp [trace_successor, hsucc, hr]
  · by_cases hr : _is_key_in_range n target
    · simp [trace_successor, hsucc, hr]
    · simp [trace_successor, hsucc, hr, hcpf, addressEq_refl]
  · subst hcpf
    simp [trace_successor, hsucc, hr, hne, hnet, hp]
  · subst hcpf
    rcases hfail with h | h <;>
      simp [trace_successor, hsucc, hr, hne, h]

/-- Witness for C4: a forwarded trace whose reply reports 3 hops comes back
with 4 hops and the remote address string. -/
theorem trace_successor_hops_witness :
    trace_successor
      ⟨⟨100, "a", 1⟩, [some ⟨200, "1.1.1.1", 1111⟩, some ⟨400, "3.3.3.3", 3333⟩], none, 0⟩
      (fun _ _ _ => NetReply.reply "550:4.4.4.4:4444:3") 500 2 =
      some ("550:4.4.4.4:4444", 3 + 1) :=
  (trace_successor_hops
    ⟨⟨100, "a", 1⟩, [some ⟨200, "1.1.1.1", 1111⟩, some ⟨400, "3.3.3.3", 3333⟩], none, 0⟩
    (fun _ _ _ => NetReply.reply "550:4.4.4.4:4444:3") 500 2 ⟨200, "1.1.1.1", 1111⟩
    rfl).2.2.1 ⟨400, "3.3.3.3", 3333⟩ "550:4.4.4.4:4444:3" "550:4.4.4.4:4444" 3
    (by decide) (by decide) (by decide) rfl rfl

/-- C8: when the FIND_SUCCESSOR request that `join` sends to the known peer
yields no reply or an unparseable reply, join fails with `JoinFailed` and
the node's successor stays unset. -/
theorem join_failure_leaves_node_fresh (n : NodeState) (net : Net)
    (peer_ip : String) (peer_port : Nat) (hfresh : successor n = none)
    (hfail :
      net (Address.make peer_ip peer_port) "FIND_SUCCESSOR" [n.address.key] =
        NetReply.noResp ∨
      ∃ s, net (Address.make peer_ip peer_port) "FIND_SUCCESSOR" [n.address.key] =
        NetReply.reply s ∧ parse_address s = Except.error ()) :
    join n net peer_ip peer_port = (n, some JoinError.joinFailed) ∧
    successor (join n net peer_ip peer_port).1 = none := by
  have hj : join n net peer_ip peer_port = (n, some JoinError.joinFailed) := by
    rcases hfail with h | ⟨s, hs, hp⟩
    · simp [join, h]
    · simp [join, hs, hp]
  exact ⟨hj, by rw [hj]; exact hfresh⟩

/-- Witness for C8: a freshly constructed node joining through a peer that
never responds. -/
theorem join_failure_leaves_node_fresh_witness :
    join (NodeState.make "1.2.3.4" 5) (fun _ _ _ => NetReply.noResp) "5.6.7.8" 5000 =
      (NodeState.make "1.2.3.4" 5, some JoinError.joinFailed) ∧
    successor (join (NodeState.make "1.2.3.4" 5) (fun _ _ _ => NetReply.noResp)
      "5.6.7.8" 5000).1 = none :=
  join_failure_leaves_node_fresh (NodeState.make "1.2.3.4" 5)
    (fun _ _ _ => NetReply.noResp) "5.6.7.8" 5000 rfl (Or.inl rfl)

end Chordnet
